import Mathlib

/-!
Shallow embedding of the iterative-resolver module in
`src/iterator/iterator.c` (the early Unbound iterator module), together
with theorems checking the natural-language specification against it.

External collaborators (cache, delegation cache, wire encoder, network
send) are modelled as oracles carried in the module environment; every
call to one of them is also recorded in an observable trace so that
"no lookup performed" style properties can be stated.  Logging is
modelled as boolean flags in the results of the helpers that log.
The per-query region allocator is modelled as a budget of allocations
that will still succeed (`Region`), so that allocation failure is a
reachable behaviour.
-/

/- Constants from headers that are part of the wider project
   (ldns, net_help.h, iterator.h).  Their concrete values do not matter
   to any theorem below; standard DNS values are used. -/

/-- ldns: the DS resource record type code (43). -/
def LDNS_RR_TYPE_DS : Nat := 43

/-- ldns: the SERVFAIL response code (2). -/
def LDNS_RCODE_SERVFAIL : Nat := 2

/-- net_help.h: the CD (checking disabled) flag bit of the DNS header. -/
def BIT_CD : Nat := 16

/-- EDNS version advertised by the resolver in outgoing answers. -/
def EDNS_ADVERTISED_VERSION : Nat := 0

/-- EDNS UDP payload size advertised by the resolver. -/
def EDNS_ADVERTISED_SIZE : Nat := 4096

/-- EDNS DO (DNSSEC OK) bit mask. -/
def EDNS_DO : Nat := 32768

/-- The states of the iterator state machine, `enum iter_state` of
iterator.h, with the names used by iterator.c. -/
inductive IterState where
  | INIT_REQUEST_STATE
  | INIT_REQUEST_2_STATE
  | INIT_REQUEST_3_STATE
  | QUERYTARGETS_STATE
  | QUERY_RESP_STATE
  | PRIME_RESP_STATE
  | TARGET_RESP_STATE
  | FINISHED_STATE
deriving DecidableEq

/-- `iter_state_is_responsestate` (iterator.c lines 712-725): the four
InitRequest/QueryTargets states are not response states, every other
state is. -/
def iter_state_is_responsestate (s : IterState) : Bool :=
  match s with
  | IterState.INIT_REQUEST_STATE => false
  | IterState.INIT_REQUEST_2_STATE => false
  | IterState.INIT_REQUEST_3_STATE => false
  | IterState.QUERYTARGETS_STATE => false
  | _ => true

/-- Module external state, `enum module_ext_state` of util/module.h as
used by iterator.c. -/
inductive ExtState where
  | module_state_initial
  | module_wait_reply
  | module_wait_subquery
  | module_error
  | module_finished
deriving DecidableEq

/-- Module events, `enum module_ev` of util/module.h as used by
iterator.c; `module_event_other` stands for any further event kind
(hitting the handlers' default branches). -/
inductive ModuleEv where
  | module_event_new
  | module_event_reply
  | module_event_timeout
  | module_event_error
  | module_event_other
deriving DecidableEq

/-- A packed resource record set: the key contents (`rk`, what
`sets[num]->rk = *p->rrset.k` copies) and the data pointer
(`entry.data`).  Both are abstracted to numbers. -/
structure RRset where
  rk : Nat
  data : Nat
deriving DecidableEq

/-- `iter_prepend` copies a prepend-list entry into a freshly allocated
rrset key: the key contents are dereferenced and copied, the data
pointer is shared.  On the value level this preserves the entry. -/
def copy_rrset (p : RRset) : RRset :=
  { rk := p.rk, data := p.data }

/-- A dns_msg as far as this module observes it: the answer record-set
list `msg->rep->rrsets` (with `rrset_count` its length). -/
structure DnsMsg where
  rrsets : List RRset
deriving DecidableEq

/-- `struct query_info`: wire-format query name (a list of bytes),
type, class and the CD flag of the client query. -/
structure QueryInfo where
  qname : List Nat
  qtype : Nat
  qclass : Nat
  has_cd : Bool
deriving DecidableEq

/-- `struct edns_data` fields touched by iterator.c. -/
structure EdnsData where
  edns_present : Bool
  edns_version : Nat
  udp_size : Nat
  ext_rcode : Nat
  bits : Nat
deriving DecidableEq

/-- Observable content of the per-query response buffer `qstate->buf`:
either untouched, an error response written by `error_response`
(query section echoed, rcode and QR set), or an encoded answer written
by `reply_info_answer_encode` (query info used, answer record sets,
flags passed to the encoder). -/
inductive BufContent where
  | unset
  | errorResponse (q : QueryInfo) (rcode : Nat)
  | answer (q : QueryInfo) (rrsets : List RRset) (flags : Nat)
deriving DecidableEq

/-- The per-query region allocator, modelled as the number of
allocations that will still succeed before the arena is exhausted. -/
abbrev Region := Nat

/-- `region_alloc`: succeeds while the arena still has budget. -/
def region_alloc (r : Region) : Region × Bool :=
  match r with
  | 0 => (0, false)
  | n + 1 => (n, true)

/-- `struct module_qstate` fields read or written by iterator.c.
`reply` is the incoming reply (NULL modelled as `none`);
`subreq_depth` is the value `module_subreq_depth(qstate)` returns for
this query. -/
structure ModuleQstate where
  qinfo : QueryInfo
  query_flags : Nat
  query_hash : Nat
  edns : EdnsData
  buf : BufContent
  reply : Option Nat
  subreq_depth : Nat
  ext_state : ExtState
deriving DecidableEq

/-- `struct iter_qstate` of iterator.h as initialised and used by
iterator.c. -/
structure IterQstate where
  state : IterState
  final_state : IterState
  prepend_list : List RRset
  dp : Option Nat
  current_target : Option Nat
  num_target_queries : Int
  num_current_queries : Nat
  query_restart_count : Nat
  referral_count : Nat
  priming_stub : Bool
  orig_qname : Option (List Nat)
  orig_qflags : Nat
  outlist : List Nat
deriving DecidableEq

/-- `struct iter_env` fields read by iterator.c, plus the restart limit.
`max_restart_count` models the compile-time macro MAX_RESTART_COUNT of
iterator.h (the header is not part of src/), kept as a parameter; the
code only compares `query_restart_count` against it. -/
structure IterEnv where
  max_dependency_depth : Nat
  max_restart_count : Nat
  fwd_addr : Nat
  fwd_addrlen : Nat
deriving DecidableEq

/-- One call to an external collaborator, recorded in order. -/
inductive ExtCall where
  | cacheLookup (q : QueryInfo)
  | findDelegation (dname : List Nat) (qclass : Nat)
  | sendQuery (qname : List Nat) (qtype : Nat) (qclass : Nat) (flags : Nat)
      (dnssec : Bool) (dest : Nat)
  | cacheStore (q : QueryInfo)
deriving DecidableEq

/-- `struct module_env` collaborators used by iterator.c, as oracles:
the cache lookup result as a function of the query info, the delegation
lookup result as a function of name and class, the outbound entry
`env->send_query` returns (`none` = NULL), the result of
`reply_info_parse` on the current reply, and whether
`reply_info_answer_encode` succeeds. -/
structure ModuleEnv where
  cache_lookup : QueryInfo → Option DnsMsg
  find_delegation : List Nat → Nat → Option Nat
  send_query_result : Option Nat
  parse_result : Option (QueryInfo × List RRset)
  encode_ok : Bool

/-- Result of `next_state` (iterator.c lines 210-224):
`logged_missing_response` is true when the consistency check fired
(transition to a response state while `qstate->reply` is NULL, which
the code logs with log_err); `iq` is the updated iterator state;
`ret` is the function's return value (always 1). -/
structure TransitionResult where
  logged_missing_response : Bool
  iq : IterQstate
  ret : Bool
deriving DecidableEq

/-- `next_state`: log the consistency violation if the target is a
response state and no response is attached, then perform the
transition anyway and return true. -/
def next_state (qstate : ModuleQstate) (iq : IterQstate) (nextstate : IterState) :
    TransitionResult :=
  { logged_missing_response :=
      iter_state_is_responsestate nextstate && qstate.reply.isNone
    iq := { iq with state := nextstate }
    ret := true }

/-- `final_state`: transition to the recorded final state. -/
def final_state (qstate : ModuleQstate) (iq : IterQstate) : TransitionResult :=
  next_state qstate iq iq.final_state

/-- Result of `error_response`: the query state with the error written
into the buffer, the iterator state after the final-state transition,
and the return value. -/
structure ErrorResult where
  qstate : ModuleQstate
  iq : IterQstate
  ret : Bool
deriving DecidableEq

/-- `error_response` (iterator.c lines 248-257): encode the query
section into the buffer, set the rcode and the QR bit, then route
through the final-state transition. -/
def error_response (qstate : ModuleQstate) (iq : IterQstate) (rcode : Nat) :
    ErrorResult :=
  let qstate1 := { qstate with buf := BufContent.errorResponse qstate.qinfo rcode }
  let t := final_state qstate1 iq
  { qstate := qstate1, iq := t.iq, ret := t.ret }

/-- Result of `iter_prepend`: remaining region budget, the function's
int return value, and the message (updated only on success). -/
structure PrependResult where
  region : Region
  ok : Bool
  msg : DnsMsg
deriving DecidableEq

/-- The for-loop of `iter_prepend`: allocate a fresh rrset key for each
prepend entry in list order and copy the entry into it; stop at the
first failed allocation. -/
def prepend_copy_loop (l : List RRset) (r : Region) :
    Region × Option (List RRset) :=
  match l with
  | [] => (r, some [])
  | p :: rest =>
    match region_alloc r with
    | (r1, false) => (r1, none)
    | (r1, true) =>
      match prepend_copy_loop rest r1 with
      | (r2, none) => (r2, none)
      | (r2, some cs) => (r2, some (copy_rrset p :: cs))

/-- `iter_prepend` (iterator.c lines 260-289): with an empty prepend
list, succeed without touching the message.  Otherwise allocate the
combined array (one allocation), copy the original record sets behind
the prepend slots, then allocate-and-copy each prepend entry in list
order; `msg->rep->rrsets` is replaced by the combined array only after
the loop has completed, so any failure leaves the message unchanged. -/
def iter_prepend (prepend : List RRset) (msg : DnsMsg) (region : Region) :
    PrependResult :=
  if prepend = [] then { region := region, ok := true, msg := msg }
  else
    match region_alloc region with
    | (r1, false) => { region := r1, ok := false, msg := msg }
    | (r1, true) =>
      match prepend_copy_loop prepend r1 with
      | (r2, none) => { region := r2, ok := false, msg := msg }
      | (r2, some cs) =>
        { region := r2, ok := true, msg := { msg with rrsets := cs ++ msg.rrsets } }

/-- Result of `iter_encode_respmsg`: updated query state (buffer,
possibly an error response), updated iterator state (a final-state
transition happens on the error path), remaining region budget. -/
structure EncodeResult where
  qstate : ModuleQstate
  iq : IterQstate
  region : Region
deriving DecidableEq

/-- `iter_encode_respmsg` (iterator.c lines 298-328): encode the answer
message into the buffer, using the original query name when the query
was rewritten, splicing in the prepend list when present; any failure
(prepend splice or wire encode) degrades to a SERVFAIL error
response. -/
def iter_encode_respmsg (env : ModuleEnv) (qstate : ModuleQstate)
    (iq : IterQstate) (msg : DnsMsg) (region : Region) : EncodeResult :=
  let qinf :=
    match iq.orig_qname with
    | some n => { qstate.qinfo with qname := n }
    | none => qstate.qinfo
  let spliced :=
    if iq.prepend_list ≠ [] then iter_prepend iq.prepend_list msg region
    else { region := region, ok := true, msg := msg }
  if spliced.ok then
    if env.encode_ok then
      { qstate := { qstate with
          buf := BufContent.answer qinf spliced.msg.rrsets iq.orig_qflags }
        iq := iq
        region := spliced.region }
    else
      let e := error_response qstate iq LDNS_RCODE_SERVFAIL
      { qstate := e.qstate, iq := e.iq, region := spliced.region }
  else
    let e := error_response qstate iq LDNS_RCODE_SERVFAIL
    { qstate := e.qstate, iq := e.iq, region := spliced.region }

/-- The delegation lookup name computed by `processInitRequest`
(iterator.c lines 438-445): for a DS query whose first name byte (the
first label length) is not zero, skip that label; otherwise the query
name itself. -/
def delname_of (q : QueryInfo) : List Nat :=
  if q.qtype = LDNS_RR_TYPE_DS ∧ q.qname.headD 0 ≠ 0 then
    q.qname.drop (q.qname.headD 0 + 1)
  else q.qname

/-- Result of a state handler: the handler's int return value
(`cont` true = keep processing, false = suspend), updated states,
region, and the trace of collaborator calls made. -/
structure ProcResult where
  cont : Bool
  qstate : ModuleQstate
  iq : IterQstate
  region : Region
  calls : List ExtCall
deriving DecidableEq

/-- `processInitRequest` (iterator.c lines 366-480).  In order: the
query-restart limit check, the dependency-depth limit check, the cache
lookup, the delegation lookup.  On a cache hit the source executes an
unconditional block (the classifying `if` at line 413 is commented
out) that increments `query_restart_count` and re-enters
INIT_REQUEST_STATE; the answer branch at lines 423-426
(`iter_encode_respmsg` then `final_state`) is unreachable dead code
after that block's return, so it does not occur below.  On a cache
miss the delegation lookup result is stored into `iq->dp`; when it is
NULL the handler returns false (root priming is left unimplemented),
otherwise it transitions to INIT_REQUEST_2_STATE. -/
def processInitRequest (ie : IterEnv) (env : ModuleEnv) (qstate : ModuleQstate)
    (iq : IterQstate) (region : Region) : ProcResult :=
  if iq.query_restart_count > ie.max_restart_count then
    let e := error_response qstate iq LDNS_RCODE_SERVFAIL
    { cont := e.ret, qstate := e.qstate, iq := e.iq, region := region, calls := [] }
  else if qstate.subreq_depth > ie.max_dependency_depth then
    let e := error_response qstate iq LDNS_RCODE_SERVFAIL
    { cont := e.ret, qstate := e.qstate, iq := e.iq, region := region, calls := [] }
  else
    match env.cache_lookup qstate.qinfo with
    | some _ =>
      let iq1 := { iq with query_restart_count := iq.query_restart_count + 1 }
      let t := next_state qstate iq1 IterState.INIT_REQUEST_STATE
      { cont := t.ret, qstate := qstate, iq := t.iq, region := region
        calls := [ExtCall.cacheLookup qstate.qinfo] }
    | none =>
      let delname := delname_of qstate.qinfo
      let dpres := env.find_delegation delname qstate.qinfo.qclass
      let iq1 := { iq with dp := dpres }
      let trace := [ExtCall.cacheLookup qstate.qinfo,
                    ExtCall.findDelegation delname qstate.qinfo.qclass]
      match dpres with
      | none =>
        { cont := false, qstate := qstate, iq := iq1, region := region
          calls := trace }
      | some _ =>
        let t := next_state qstate iq1 IterState.INIT_REQUEST_2_STATE
        { cont := t.ret, qstate := qstate, iq := t.iq, region := region
          calls := trace }

/-- `iter_new` (iterator.c lines 86-109): allocate the iterator query
state in the query's region (failure = `none`) and initialise it:
INIT_REQUEST/FINISHED states, empty prepend list, no delegation point,
num_target_queries defaulted to -1, counters zero, the original query
flags saved, empty outbound list. -/
def iter_new (qstate : ModuleQstate) (region : Region) :
    Region × Option IterQstate :=
  match region_alloc region with
  | (r1, false) => (r1, none)
  | (r1, true) =>
    (r1, some
      { state := IterState.INIT_REQUEST_STATE
        final_state := IterState.FINISHED_STATE
        prepend_list := []
        dp := none
        current_target := none
        num_target_queries := -1
        num_current_queries := 0
        query_restart_count := 0
        referral_count := 0
        priming_stub := false
        orig_qname := none
        orig_qflags := qstate.query_flags
        outlist := [] })

/-- The all-zero iterator query state `memset` produces in `fwd_new`
(state value 0 is INIT_REQUEST_STATE, the first enum member). -/
def zeroed_iq : IterQstate :=
  { state := IterState.INIT_REQUEST_STATE
    final_state := IterState.INIT_REQUEST_STATE
    prepend_list := []
    dp := none
    current_target := none
    num_target_queries := 0
    num_current_queries := 0
    query_restart_count := 0
    referral_count := 0
    priming_stub := false
    orig_qname := none
    orig_qflags := 0
    outlist := [] }

/-- Result of `fwd_new`: the int return value, updated query state,
the iterator query state stored in minfo (`none` when its allocation
failed), remaining region budget, trace. -/
structure FwdNewResult where
  ok : Bool
  qstate : ModuleQstate
  iq : Option IterQstate
  region : Region
  calls : List ExtCall
deriving DecidableEq

/-- `fwd_new` (iterator.c lines 112-137): allocate and zero the
iterator state, then send one query for the client's question to the
configured forward address, with flags = opcode query plus the
client's CD bit when set, and dnssec information always requested
(`dnssec = 1`).  On send failure return 0; on success record the
outbound entry and set the external state to wait_reply. -/
def fwd_new (env : ModuleEnv) (ie : IterEnv) (qstate : ModuleQstate)
    (region : Region) : FwdNewResult :=
  match region_alloc region with
  | (r1, false) =>
    { ok := false, qstate := qstate, iq := none, region := r1, calls := [] }
  | (r1, true) =>
    let flags := if qstate.qinfo.has_cd then BIT_CD else 0
    let call := ExtCall.sendQuery qstate.qinfo.qname qstate.qinfo.qtype
        qstate.qinfo.qclass flags true ie.fwd_addr
    match env.send_query_result with
    | none =>
      { ok := false, qstate := qstate, iq := some zeroed_iq, region := r1
        calls := [call] }
    | some e =>
      { ok := true
        qstate := { qstate with ext_state := ExtState.module_wait_reply }
        iq := some { zeroed_iq with outlist := [e] }
        region := r1
        calls := [call] }

/-- Result of `iter_handlereply`: int return value, updated query
state, trace. -/
structure ReplyResult where
  ok : Bool
  qstate : ModuleQstate
  calls : List ExtCall
deriving DecidableEq

/-- `iter_handlereply` (iterator.c lines 140-167): parse the reply
(failure returns 0), re-derive the EDNS fields (advertised version and
size, clear extended rcode, mask to the DO bit), encode the answer
(failure returns 0), store the reply message into the cache, and mark
the module finished. -/
def iter_handlereply (env : ModuleEnv) (qstate : ModuleQstate) : ReplyResult :=
  match env.parse_result with
  | none => { ok := false, qstate := qstate, calls := [] }
  | some pr =>
    let qstate1 := { qstate with edns := { qstate.edns with
        edns_version := EDNS_ADVERTISED_VERSION
        udp_size := EDNS_ADVERTISED_SIZE
        ext_rcode := 0
        bits := qstate.edns.bits &&& EDNS_DO } }
    if env.encode_ok then
      { ok := true
        qstate := { qstate1 with
          buf := BufContent.answer pr.1 pr.2 qstate.query_flags
          ext_state := ExtState.module_finished }
        calls := [ExtCall.cacheStore pr.1] }
    else { ok := false, qstate := qstate1, calls := [] }

/-- Result of `perform_forward` / `iter_operate`: updated query state,
the iterator state in minfo, remaining region, trace. -/
structure OperateResult where
  qstate : ModuleQstate
  iq : Option IterQstate
  region : Region
  calls : List ExtCall
deriving DecidableEq

/-- `perform_forward` (iterator.c lines 170-197): a new-query event
runs `fwd_new` (failure flags a module error); any other event must
carry an outbound reference (else module error); timeout and transport
error events flag a module error; a reply event runs
`iter_handlereply` (failure flags a module error); any other event is
a bad event, flagged as a module error. -/
def perform_forward (env : ModuleEnv) (ie : IterEnv) (qstate : ModuleQstate)
    (event : ModuleEv) (iq : Option IterQstate) (outbound : Option Nat)
    (region : Region) : OperateResult :=
  match event with
  | ModuleEv.module_event_new =>
    let f := fwd_new env ie qstate region
    if f.ok then
      { qstate := f.qstate, iq := f.iq, region := f.region, calls := f.calls }
    else
      { qstate := { f.qstate with ext_state := ExtState.module_error }
        iq := f.iq, region := f.region, calls := f.calls }
  | _ =>
    match outbound with
    | none =>
      { qstate := { qstate with ext_state := ExtState.module_error }
        iq := iq, region := region, calls := [] }
    | some _ =>
      match event with
      | ModuleEv.module_event_timeout =>
        { qstate := { qstate with ext_state := ExtState.module_error }
          iq := iq, region := region, calls := [] }
      | ModuleEv.module_event_error =>
        { qstate := { qstate with ext_state := ExtState.module_error }
          iq := iq, region := region, calls := [] }
      | ModuleEv.module_event_reply =>
        let h := iter_handlereply env qstate
        if h.ok then
          { qstate := h.qstate, iq := iq, region := region, calls := h.calls }
        else
          { qstate := { h.qstate with ext_state := ExtState.module_error }
            iq := iq, region := region, calls := h.calls }
      | _ =>
        { qstate := { qstate with ext_state := ExtState.module_error }
          iq := iq, region := region, calls := [] }

/-- Result of `iter_handle` and its wrappers. -/
structure HandleResult where
  qstate : ModuleQstate
  iq : IterQstate
  region : Region
  calls : List ExtCall
deriving DecidableEq

/-- `iter_handle` (iterator.c lines 551-593): run the handler for the
current state while handlers return true.  Only INIT_REQUEST_STATE has
a live handler; every other state hits the default branch (the other
cases are compiled out), which logs an invalid state and stops.  The
loop is driven by a fuel parameter; fuel exhaustion stops the loop
(the concrete theorems below always supply enough fuel). -/
def iter_handle (fuel : Nat) (ie : IterEnv) (env : ModuleEnv)
    (qstate : ModuleQstate) (iq : IterQstate) (region : Region) : HandleResult :=
  match fuel with
  | 0 => { qstate := qstate, iq := iq, region := region, calls := [] }
  | fuel' + 1 =>
    match iq.state with
    | IterState.INIT_REQUEST_STATE =>
      let p := processInitRequest ie env qstate iq region
      if p.cont then
        let h := iter_handle fuel' ie env p.qstate p.iq p.region
        { qstate := h.qstate, iq := h.iq, region := h.region
          calls := p.calls ++ h.calls }
      else
        { qstate := p.qstate, iq := p.iq, region := p.region, calls := p.calls }
    | _ => { qstate := qstate, iq := iq, region := region, calls := [] }

/-- `process_request` (iterator.c lines 602-612): external requests
start in INIT_REQUEST_STATE and finish with FINISHED_STATE, then the
handling loop runs. -/
def process_request (fuel : Nat) (ie : IterEnv) (env : ModuleEnv)
    (qstate : ModuleQstate) (iq : IterQstate) (region : Region) : HandleResult :=
  iter_handle fuel ie env qstate
    { iq with state := IterState.INIT_REQUEST_STATE
              final_state := IterState.FINISHED_STATE } region

/-- `process_response` (iterator.c lines 615-623): responses enter the
loop in QUERY_RESP_STATE. -/
def process_response (fuel : Nat) (ie : IterEnv) (env : ModuleEnv)
    (qstate : ModuleQstate) (iq : IterQstate) (region : Region) : HandleResult :=
  iter_handle fuel ie env qstate
    { iq with state := IterState.QUERY_RESP_STATE } region

/-- `iter_operate` (iterator.c lines 626-658): when a forward address
is configured (`fwd_addrlen != 0`) every event is handed to
`perform_forward` and the state machine is never entered.  Otherwise a
new-query event allocates the iterator state (allocation failure flags
a module error) and runs `process_request`; a reply event runs
`process_response` on the stored iterator state (a missing minfo would
be a caller contract violation, modelled as a module error); any other
event is a bad event, flagged as a module error. -/
def iter_operate (fuel : Nat) (ie : IterEnv) (env : ModuleEnv)
    (qstate : ModuleQstate) (event : ModuleEv) (iq : Option IterQstate)
    (outbound : Option Nat) (region : Region) : OperateResult :=
  if ie.fwd_addrlen ≠ 0 then
    perform_forward env ie qstate event iq outbound region
  else
    match event with
    | ModuleEv.module_event_new =>
      match iter_new qstate region with
      | (r1, none) =>
        { qstate := { qstate with ext_state := ExtState.module_error }
          iq := none, region := r1, calls := [] }
      | (r1, some iq0) =>
        let h := process_request fuel ie env qstate iq0 r1
        { qstate := h.qstate, iq := some h.iq, region := h.region
          calls := h.calls }
    | ModuleEv.module_event_reply =>
      match iq with
      | none =>
        { qstate := { qstate with ext_state := ExtState.module_error }
          iq := none, region := region, calls := [] }
      | some iq0 =>
        let h := process_response fuel ie env qstate iq0 region
        { qstate := h.qstate, iq := some h.iq, region := h.region
          calls := h.calls }
    | _ =>
      { qstate := { qstate with ext_state := ExtState.module_error }
        iq := iq, region := region, calls := [] }

/-- Whether a trace contains any call into the iterative resolver's
cache machinery (record cache lookup or delegation lookup) — the
observable footprint of the state machine's InitRequest path. -/
def touches_iter_machine (t : List ExtCall) : Bool :=
  t.any fun c =>
    match c with
    | ExtCall.cacheLookup _ => true
    | ExtCall.findDelegation _ _ => true
    | _ => false

/- Concrete fixtures used by the evaluation theorems and witnesses. -/

/-- Wire-format name example.com. -/
def qname_example_com : List Nat :=
  [7, 101, 120, 97, 109, 112, 108, 101, 3, 99, 111, 109, 0]

/-- Wire-format name child.example.com. -/
def qname_child_example_com : List Nat :=
  [5, 99, 104, 105, 108, 100, 7, 101, 120, 97, 109, 112, 108, 101,
   3, 99, 111, 109, 0]

/-- A quiescent EDNS record. -/
def edns0 : EdnsData :=
  { edns_present := false, edns_version := 0, udp_size := 512
    ext_rcode := 0, bits := 0 }

/-- An A-type query for example.com, class IN. -/
def qinfo_example_A : QueryInfo :=
  { qname := qname_example_com, qtype := 1, qclass := 1, has_cd := false }

/-- A fresh module query state for a given question. -/
def mk_qstate (q : QueryInfo) : ModuleQstate :=
  { qinfo := q, query_flags := 0, query_hash := 0, edns := edns0
    buf := BufContent.unset, reply := none, subreq_depth := 0
    ext_state := ExtState.module_state_initial }

/-- The iterator query state as `iter_new` initialises it for a query
with zero flags. -/
def iq_fresh : IterQstate :=
  { state := IterState.INIT_REQUEST_STATE
    final_state := IterState.FINISHED_STATE
    prepend_list := []
    dp := none
    current_target := none
    num_target_queries := -1
    num_current_queries := 0
    query_restart_count := 0
    referral_count := 0
    priming_stub := false
    orig_qname := none
    orig_qflags := 0
    outlist := [] }

/-- A module environment whose collaborators all return nothing. -/
def env_nil : ModuleEnv :=
  { cache_lookup := fun _ => none
    find_delegation := fun _ _ => none
    send_query_result := none
    parse_result := none
    encode_ok := true }

/-- A non-forwarding iterator environment with small limits. -/
def ie0 : IterEnv :=
  { max_dependency_depth := 4, max_restart_count := 8
    fwd_addr := 0, fwd_addrlen := 0 }

/-- C1 fixture: a satisfying cached answer for example.com/A. -/
def c1_msg : DnsMsg := { rrsets := [{ rk := 11, data := 21 }] }

/-- C1 fixture: environment whose cache returns the satisfying
answer. -/
def c1_env : ModuleEnv := { env_nil with cache_lookup := fun _ => some c1_msg }

/-- C1 fixture: the client query state. -/
def c1_qstate : ModuleQstate := mk_qstate qinfo_example_A

/-- C2 fixture: a CNAME record set (type data abstracted) cached for
the A query. -/
def c2_msg : DnsMsg := { rrsets := [{ rk := 12, data := 22 }] }

/-- C2 fixture: environment whose cache returns the CNAME-type
message. -/
def c2_env : ModuleEnv := { env_nil with cache_lookup := fun _ => some c2_msg }

/-- C2 fixture: the client query state. -/
def c2_qstate : ModuleQstate := mk_qstate qinfo_example_A

/-- C3 fixture: a cache-miss environment that does know a delegation
point. -/
def c3_env : ModuleEnv := { env_nil with find_delegation := fun _ _ => some 7 }

/-- C3 fixture: the client query state. -/
def c3_qstate : ModuleQstate := mk_qstate qinfo_example_A

/-- C3 fixture: iterator state whose restart count sits exactly at the
configured maximum of `ie0`. -/
def c3_iq_at_max : IterQstate := { iq_fresh with query_restart_count := 8 }

/-- C3 fixture: iterator state whose restart count strictly exceeds
the configured maximum of `ie0`. -/
def c3_iq_over_max : IterQstate := { iq_fresh with query_restart_count := 9 }

/-- C4 fixture: a query state carrying no response object. -/
def c4_qstate : ModuleQstate := mk_qstate qinfo_example_A

/-- C5/C10 fixtures: distinguishable record sets A, B, C, D. -/
def rrA : RRset := { rk := 1, data := 101 }

/-- Record set B. -/
def rrB : RRset := { rk := 2, data := 102 }

/-- Record set C. -/
def rrC : RRset := { rk := 3, data := 103 }

/-- Record set D. -/
def rrD : RRset := { rk := 4, data := 104 }

/-- C5/C10 fixture: a message whose own answer record sets are
[C, D]. -/
def msg_CD : DnsMsg := { rrsets := [rrC, rrD] }

/-- C6 fixture: iterator environment with a static forward address
configured. -/
def c6_ie : IterEnv :=
  { max_dependency_depth := 4, max_restart_count := 8
    fwd_addr := 99, fwd_addrlen := 16 }

/-- C6 fixture: the parsed upstream reply. -/
def c6_reply : QueryInfo × List RRset := (qinfo_example_A, [rrA])

/-- C6 fixture: environment where sending succeeds, the reply parses
and the answer encodes. -/
def c6_env : ModuleEnv :=
  { env_nil with send_query_result := some 5, parse_result := some c6_reply }

/-- C6 fixture: a client query state with the CD bit set. -/
def c6_qstate : ModuleQstate :=
  mk_qstate { qinfo_example_A with has_cd := true }

/-- C7 fixture: a DS query for child.example.com. -/
def c7_qinfo : QueryInfo :=
  { qname := qname_child_example_com, qtype := 43, qclass := 1, has_cd := false }

/-- C7 fixture: the client query state for the DS query. -/
def c7_qstate : ModuleQstate := mk_qstate c7_qinfo

/-- C7 fixture: cache-miss environment with a known delegation
point. -/
def c7_env : ModuleEnv := { env_nil with find_delegation := fun _ _ => some 3 }

/-- C8 fixture: the client query state. -/
def c8_qstate : ModuleQstate := mk_qstate qinfo_example_A

/-- C9 fixture: environment whose wire encoder fails. -/
def c9_env : ModuleEnv := { env_nil with encode_ok := false }

/-- C9 fixture: the client query state. -/
def c9_qstate : ModuleQstate := mk_qstate qinfo_example_A

/- Theorems. -/

/-- Claim C1 (code bug evaluation): for a query whose cache lookup
returns a satisfying (non-CNAME) answer for example.com/A, the
InitRequest handler does NOT assemble the final response and does NOT
transition to the final state: the classifying `if` at iterator.c line
413 is commented out, so the CNAME-restart block runs unconditionally
for every cache hit.  At this input the handler increments
query_restart_count, re-enters INIT_REQUEST_STATE, leaves the response
buffer untouched, and performs only the cache lookup. -/
theorem C1_cache_hit_restarts_instead_of_finishing :
    (processInitRequest ie0 c1_env c1_qstate iq_fresh 10).cont = true ∧
    (processInitRequest ie0 c1_env c1_qstate iq_fresh 10).iq.state
      = IterState.INIT_REQUEST_STATE ∧
    (processInitRequest ie0 c1_env c1_qstate iq_fresh 10).iq.query_restart_count
      = 1 ∧
    (processInitRequest ie0 c1_env c1_qstate iq_fresh 10).qstate.buf
      = BufContent.unset ∧
    (processInitRequest ie0 c1_env c1_qstate iq_fresh 10).calls
      = [ExtCall.cacheLookup c1_qstate.qinfo] := by
  decide

/-- Claim C2: for every query that passes the restart and depth limit
checks and whose cache lookup returns an answer (in particular a
CNAME/DNAME-type answer not satisfying the original query type — the
code applies this branch to every cache hit, the classifying `if`
being commented out), the InitRequest handler increments
query_restart_count by exactly 1 and immediately re-enters
INIT_REQUEST_STATE with a continue (true), not a suspend. -/
theorem C2_cname_cache_hit_restarts (ie : IterEnv) (env : ModuleEnv)
    (qstate : ModuleQstate) (iq : IterQstate) (region : Region) (msg : DnsMsg)
    (hrestart : ¬ iq.query_restart_count > ie.max_restart_count)
    (hdepth : ¬ qstate.subreq_depth > ie.max_dependency_depth)
    (hhit : env.cache_lookup qstate.qinfo = some msg) :
    (processInitRequest ie env qstate iq region).cont = true ∧
    (processInitRequest ie env qstate iq region).iq.query_restart_count
      = iq.query_restart_count + 1 ∧
    (processInitRequest ie env qstate iq region).iq.state
      = IterState.INIT_REQUEST_STATE := by
  simp [processInitRequest, hrestart, hdepth, hhit, next_state]

/-- Witness for C2 at a concrete CNAME cache hit. -/
theorem C2_cname_cache_hit_restarts_witness :
    (¬ iq_fresh.query_restart_count > ie0.max_restart_count) ∧
    (¬ c2_qstate.subreq_depth > ie0.max_dependency_depth) ∧
    c2_env.cache_lookup c2_qstate.qinfo = some c2_msg ∧
    ((processInitRequest ie0 c2_env c2_qstate iq_fresh 10).cont = true ∧
     (processInitRequest ie0 c2_env c2_qstate iq_fresh 10).iq.query_restart_count
       = iq_fresh.query_restart_count + 1 ∧
     (processInitRequest ie0 c2_env c2_qstate iq_fresh 10).iq.state
       = IterState.INIT_REQUEST_STATE) :=
  ⟨by decide, by decide, rfl,
   C2_cname_cache_hit_restarts ie0 c2_env c2_qstate iq_fresh 10 c2_msg
     (by decide) (by decide) rfl⟩

/-- Claim C3 counterexample: with query_restart_count exactly at the
configured maximum (8 = ie0.max_restart_count), the InitRequest
handler does NOT produce an immediate SERVFAIL: the check at
iterator.c line 381 uses a strict comparison, so the handler proceeds,
performs the cache lookup and the delegation lookup, and transitions
to INIT_REQUEST_2_STATE with the response buffer untouched. -/
theorem C3_at_max_restart_still_processes :
    c3_iq_at_max.query_restart_count = ie0.max_restart_count ∧
    ExtCall.cacheLookup c3_qstate.qinfo
      ∈ (processInitRequest ie0 c3_env c3_qstate c3_iq_at_max 10).calls ∧
    ExtCall.findDelegation (delname_of c3_qstate.qinfo) c3_qstate.qinfo.qclass
      ∈ (processInitRequest ie0 c3_env c3_qstate c3_iq_at_max 10).calls ∧
    (processInitRequest ie0 c3_env c3_qstate c3_iq_at_max 10).qstate.buf
      = BufContent.unset ∧
    (processInitRequest ie0 c3_env c3_qstate c3_iq_at_max 10).iq.state
      = IterState.INIT_REQUEST_2_STATE := by
  decide

/-- Claim C3 (amended): for every query entering the InitRequest
handler with query_restart_count strictly exceeding the configured
maximum, the handler immediately writes a SERVFAIL error response,
transitions to the query's final state (terminal for a top-level
query), and performs no cache lookup and no delegation lookup. -/
theorem C3_over_max_restart_servfails (ie : IterEnv) (env : ModuleEnv)
    (qstate : ModuleQstate) (iq : IterQstate) (region : Region)
    (h : iq.query_restart_count > ie.max_restart_count) :
    processInitRequest ie env qstate iq region =
      { cont := true
        qstate := { qstate with
          buf := BufContent.errorResponse qstate.qinfo LDNS_RCODE_SERVFAIL }
        iq := { iq with state := iq.final_state }
        region := region
        calls := [] } := by
  simp [processInitRequest, h, error_response, final_state, next_state]

/-- Witness for C3's amended theorem at restart count 9 > 8. -/
theorem C3_over_max_restart_servfails_witness :
    c3_iq_over_max.query_restart_count > ie0.max_restart_count ∧
    processInitRequest ie0 c3_env c3_qstate c3_iq_over_max 10 =
      { cont := true
        qstate := { c3_qstate with
          buf := BufContent.errorResponse c3_qstate.qinfo LDNS_RCODE_SERVFAIL }
        iq := { c3_iq_over_max with state := c3_iq_over_max.final_state }
        region := 10
        calls := [] } :=
  ⟨by decide,
   C3_over_max_restart_servfails ie0 c3_env c3_qstate c3_iq_over_max 10
     (by decide)⟩

/-- Claim C4 counterexample: transitioning to the response state
FINISHED_STATE while no response object is attached
(qstate.reply = none) is detected and logged by `next_state`, but the
helper does not treat it as an error that stops the transition: it
still performs the transition (the state becomes FINISHED_STATE) and
still returns true, exactly as for a valid transition. -/
theorem C4_missing_response_logged_but_transition_proceeds :
    iter_state_is_responsestate IterState.FINISHED_STATE = true ∧
    c4_qstate.reply = none ∧
    (next_state c4_qstate iq_fresh IterState.FINISHED_STATE).logged_missing_response
      = true ∧
    (next_state c4_qstate iq_fresh IterState.FINISHED_STATE).iq.state
      = IterState.FINISHED_STATE ∧
    (next_state c4_qstate iq_fresh IterState.FINISHED_STATE).ret = true := by
  decide

/-- Claim C4 (amended): whenever a state transition targets a response
state and no response object is attached to the query context, the
transition helper detects this and logs it as an internal error, but
then performs the transition anyway and returns continue — it does not
proceed silently, yet it does proceed. -/
theorem C4_response_state_check (qstate : ModuleQstate) (iq : IterQstate)
    (s : IterState)
    (hresp : iter_state_is_responsestate s = true)
    (hnone : qstate.reply = none) :
    (next_state qstate iq s).logged_missing_response = true ∧
    (next_state qstate iq s).iq.state = s ∧
    (next_state qstate iq s).ret = true := by
  simp [next_state, hresp, hnone]

/-- Witness for C4's amended theorem at FINISHED_STATE with no
response attached. -/
theorem C4_response_state_check_witness :
    iter_state_is_responsestate IterState.FINISHED_STATE = true ∧
    c4_qstate.reply = none ∧
    ((next_state c4_qstate iq_fresh IterState.FINISHED_STATE).logged_missing_response
       = true ∧
     (next_state c4_qstate iq_fresh IterState.FINISHED_STATE).iq.state
       = IterState.FINISHED_STATE ∧
     (next_state c4_qstate iq_fresh IterState.FINISHED_STATE).ret = true) :=
  ⟨by decide, rfl,
   C4_response_state_check c4_qstate iq_fresh IterState.FINISHED_STATE
     (by decide) rfl⟩

/-- Copying a prepend entry into a fresh rrset key preserves the entry
as a value. -/
theorem copy_rrset_eq (p : RRset) : copy_rrset p = p := rfl

/-- The copy loop of `iter_prepend` reproduces the prepend list in its
original order whenever every allocation succeeds. -/
theorem prepend_copy_loop_eq (l : List RRset) :
    ∀ r r2 : Region, ∀ cs : List RRset,
    prepend_copy_loop l r = (r2, some cs) → cs = l := by
  induction l with
  | nil =>
    intro r r2 cs h
    simp [prepend_copy_loop] at h
    exact h.2
  | cons p rest ih =>
    intro r r2 cs h
    rw [prepend_copy_loop] at h
    cases hr : region_alloc r with
    | mk r1 b =>
      cases b with
      | false => simp [hr] at h
      | true =>
        cases hloop : prepend_copy_loop rest r1 with
        | mk r3 o =>
          cases o with
          | none => simp [hr, hloop] at h
          | some cs' =>
            simp [hr, hloop] at h
            rw [← h.2, ih r1 r3 cs' hloop, copy_rrset_eq]

/-- Claim C5: for every message and every prepend list, whenever the
splice succeeds, response assembly places all prepend entries first,
in their insertion order, followed by all of the message's original
record sets in their original order; prepend entries are never
reordered. -/
theorem C5_prepend_preserves_order (prepend : List RRset) (msg : DnsMsg)
    (region : Region)
    (hok : (iter_prepend prepend msg region).ok = true) :
    (iter_prepend prepend msg region).msg.rrsets = prepend ++ msg.rrsets := by
  rw [iter_prepend] at hok ⊢
  by_cases hp : prepend = []
  · subst hp; simp
  · rw [if_neg hp] at hok ⊢
    cases hr : region_alloc region with
    | mk r1 b =>
      cases b with
      | false => simp [hr] at hok
      | true =>
        cases hloop : prepend_copy_loop prepend r1 with
        | mk r2 o =>
          cases o with
          | none => simp [hr, hloop] at hok
          | some cs =>
            simp [hr, hloop]
            exact prepend_copy_loop_eq prepend r1 r2 cs hloop

/-- Witness for C5: prepend entries [A, B] and original record sets
[C, D] assemble to [A, B, C, D]. -/
theorem C5_prepend_preserves_order_witness :
    (iter_prepend [rrA, rrB] msg_CD 3).ok = true ∧
    (iter_prepend [rrA, rrB] msg_CD 3).msg.rrsets
      = [rrA, rrB] ++ msg_CD.rrsets ∧
    (iter_prepend [rrA, rrB] msg_CD 3).msg.rrsets = [rrA, rrB, rrC, rrD] :=
  ⟨by decide, C5_prepend_preserves_order [rrA, rrB] msg_CD 3 (by decide),
   by decide⟩

/-- Claim C10: if a region allocation fails while splicing the prepend
list into a message (the operation returns failure), the message's
record-set list is left unchanged — the combined array is installed
into the message only after all prepend entries have been allocated
and copied successfully. -/
theorem C10_prepend_failure_leaves_msg (prepend : List RRset) (msg : DnsMsg)
    (region : Region)
    (hfail : (iter_prepend prepend msg region).ok = false) :
    (iter_prepend prepend msg region).msg = msg := by
  rw [iter_prepend] at hfail ⊢
  by_cases hp : prepend = []
  · rw [if_pos hp] at hfail; simp at hfail
  · rw [if_neg hp] at hfail ⊢
    cases hr : region_alloc region with
    | mk r1 b =>
      cases b with
      | false => simp [hr]
      | true =>
        cases hloop : prepend_copy_loop prepend r1 with
        | mk r2 o =>
          cases o with
          | none => simp [hr, hloop]
          | some cs => simp [hr, hloop] at hfail

/-- Witness for C10: with a one-entry prepend list and an exhausted
region, the splice fails and the message keeps [C, D]. -/
theorem C10_prepend_failure_leaves_msg_witness :
    (iter_prepend [rrA] msg_CD 0).ok = false ∧
    (iter_prepend [rrA] msg_CD 0).msg = msg_CD ∧
    (iter_prepend [rrA] msg_CD 0).msg.rrsets = [rrC, rrD] :=
  ⟨by decide, C10_prepend_failure_leaves_msg [rrA] msg_CD 0 (by decide),
   by decide⟩

/-- Claim C7: for every DS-type query that reaches the delegation
lookup (limit checks passed, cache miss), the lookup recorded in the
call trace is performed on `delname_of` of the query; and for a DS
query, `delname_of` strips the leftmost label (the first label length
byte plus that many bytes) whenever the name is not the root — giving
a name different from the query name — while the root name is not
adjusted. -/
theorem C7_ds_query_strips_leftmost_label (ie : IterEnv) (env : ModuleEnv)
    (qstate : ModuleQstate) (iq : IterQstate) (region : Region)
    (hrestart : ¬ iq.query_restart_count > ie.max_restart_count)
    (hdepth : ¬ qstate.subreq_depth > ie.max_dependency_depth)
    (hmiss : env.cache_lookup qstate.qinfo = none)
    (hds : qstate.qinfo.qtype = LDNS_RR_TYPE_DS) :
    (ExtCall.findDelegation (delname_of qstate.qinfo) qstate.qinfo.qclass
       ∈ (processInitRequest ie env qstate iq region).calls) ∧
    (qstate.qinfo.qname.headD 0 ≠ 0 →
      delname_of qstate.qinfo
        = qstate.qinfo.qname.drop (qstate.qinfo.qname.headD 0 + 1) ∧
      delname_of qstate.qinfo ≠ qstate.qinfo.qname) ∧
    (qstate.qinfo.qname.headD 0 = 0 →
      delname_of qstate.qinfo = qstate.qinfo.qname) := by
  refine ⟨?_, ?_, ?_⟩
  · rw [processInitRequest, if_neg hrestart, if_neg hdepth]
    cases hdp : env.find_delegation (delname_of qstate.qinfo)
        qstate.qinfo.qclass with
    | none => simp [hmiss, hdp]
    | some d => simp [hmiss, hdp]
  · intro h0
    have hif : delname_of qstate.qinfo
        = qstate.qinfo.qname.drop (qstate.qinfo.qname.headD 0 + 1) := by
      rw [delname_of, if_pos ⟨hds, h0⟩]
    refine ⟨hif, ?_⟩
    intro hcontra
    have hnil : qstate.qinfo.qname ≠ [] := by
      intro hn
      rw [hn] at h0
      simp at h0
    have hpos : 0 < qstate.qinfo.qname.length := List.length_pos.mpr hnil
    have hlen := congrArg List.length hcontra
    rw [hif, List.length_drop] at hlen
    omega
  · intro h0
    rw [delname_of, if_neg]
    intro hand
    exact hand.2 h0

/-- Witness for C7: a DS query for child.example.com looks up the
delegation for example.com (the leftmost label stripped), not for
child.example.com. -/
theorem C7_ds_query_strips_leftmost_label_witness :
    (¬ iq_fresh.query_restart_count > ie0.max_restart_count) ∧
    c7_env.cache_lookup c7_qstate.qinfo = none ∧
    c7_qstate.qinfo.qtype = LDNS_RR_TYPE_DS ∧
    delname_of c7_qinfo = qname_example_com ∧
    ((ExtCall.findDelegation (delname_of c7_qstate.qinfo)
        c7_qstate.qinfo.qclass
        ∈ (processInitRequest ie0 c7_env c7_qstate iq_fresh 10).calls) ∧
     (c7_qstate.qinfo.qname.headD 0 ≠ 0 →
       delname_of c7_qstate.qinfo
         = c7_qstate.qinfo.qname.drop (c7_qstate.qinfo.qname.headD 0 + 1) ∧
       delname_of c7_qstate.qinfo ≠ c7_qstate.qinfo.qname) ∧
     (c7_qstate.qinfo.qname.headD 0 = 0 →
       delname_of c7_qstate.qinfo = c7_qstate.qinfo.qname)) :=
  ⟨by decide, rfl, by decide, by decide,
   C7_ds_query_strips_leftmost_label ie0 c7_env c7_qstate iq_fresh 10
     (by decide) (by decide) rfl (by decide)⟩

/-- Claim C8: for every query that passes the limit checks, misses the
cache, and whose delegation-point lookup returns nothing, the
InitRequest handler returns the suspend indication (false) — so
processing stops until reactivated later — rather than transitioning
to INIT_REQUEST_2_STATE: the machine state is left unchanged and the
delegation point is recorded as absent. -/
theorem C8_no_delegation_suspends (ie : IterEnv) (env : ModuleEnv)
    (qstate : ModuleQstate) (iq : IterQstate) (region : Region)
    (hrestart : ¬ iq.query_restart_count > ie.max_restart_count)
    (hdepth : ¬ qstate.subreq_depth > ie.max_dependency_depth)
    (hmiss : env.cache_lookup qstate.qinfo = none)
    (hnodp : env.find_delegation (delname_of qstate.qinfo)
        qstate.qinfo.qclass = none) :
    (processInitRequest ie env qstate iq region).cont = false ∧
    (processInitRequest ie env qstate iq region).iq.state = iq.state ∧
    (processInitRequest ie env qstate iq region).iq.dp = none := by
  rw [processInitRequest, if_neg hrestart, if_neg hdepth]
  simp [hmiss, hnodp]

/-- Witness for C8 at a concrete query with an empty cache and no
known delegation point. -/
theorem C8_no_delegation_suspends_witness :
    env_nil.cache_lookup c8_qstate.qinfo = none ∧
    env_nil.find_delegation (delname_of c8_qstate.qinfo)
      c8_qstate.qinfo.qclass = none ∧
    ((processInitRequest ie0 env_nil c8_qstate iq_fresh 10).cont = false ∧
     (processInitRequest ie0 env_nil c8_qstate iq_fresh 10).iq.state
       = iq_fresh.state ∧
     (processInitRequest ie0 env_nil c8_qstate iq_fresh 10).iq.dp = none) :=
  ⟨rfl, rfl,
   C8_no_delegation_suspends ie0 env_nil c8_qstate iq_fresh 10
     (by decide) (by decide) rfl rfl⟩

/-- Claim C9: whenever encoding fails during final response assembly —
either the prepend-list splice fails or the wire encoder fails — the
assembler writes a SERVFAIL error response into the buffer and routes
through the final-state transition (the iterator state moves to its
recorded final state), rather than propagating a raw failure. -/
theorem C9_encode_failure_degrades_to_servfail (env : ModuleEnv)
    (qstate : ModuleQstate) (iq : IterQstate) (msg : DnsMsg) (region : Region)
    (hfail : (iq.prepend_list ≠ [] ∧
        (iter_prepend iq.prepend_list msg region).ok = false) ∨
      env.encode_ok = false) :
    (iter_encode_respmsg env qstate iq msg region).qstate.buf
      = BufContent.errorResponse qstate.qinfo LDNS_RCODE_SERVFAIL ∧
    (iter_encode_respmsg env qstate iq msg region).iq.state
      = iq.final_state := by
  rw [iter_encode_respmsg]
  by_cases hp : iq.prepend_list = []
  · have henc : env.encode_ok = false := by
      rcases hfail with ⟨hne, _⟩ | h
      · exact absurd hp hne
      · exact h
    simp [hp, henc, error_response, final_state, next_state]
  · rw [if_pos hp]
    cases hok : (iter_prepend iq.prepend_list msg region).ok with
    | false => simp [hok, error_response, final_state, next_state]
    | true =>
      have henc : env.encode_ok = false := by
        rcases hfail with ⟨_, hpf⟩ | h
        · rw [hok] at hpf; exact absurd hpf (by simp)
        · exact h
      simp [hok, henc, error_response, final_state, next_state]

/-- Witness for C9: with a failing wire encoder and an empty prepend
list, assembly of a one-record answer degrades to SERVFAIL and the
query reaches its final state. -/
theorem C9_encode_failure_degrades_to_servfail_witness :
    c9_env.encode_ok = false ∧
    ((iter_encode_respmsg c9_env c9_qstate iq_fresh c1_msg 10).qstate.buf
       = BufContent.errorResponse c9_qstate.qinfo LDNS_RCODE_SERVFAIL ∧
     (iter_encode_respmsg c9_env c9_qstate iq_fresh c1_msg 10).iq.state
       = iq_fresh.final_state) :=
  ⟨rfl,
   C9_encode_failure_degrades_to_servfail c9_env c9_qstate iq_fresh c1_msg 10
     (Or.inr rfl)⟩

/-- Claim C6: with a static forward address configured
(fwd_addrlen ≠ 0), `iter_operate` hands every event to the forwarding
path and never enters the iterative state machine (its trace contains
no cache or delegation lookups for any event).  A new-query event
sends exactly one upstream query — for the client's question, with
dnssec information always requested and the client's CD bit
propagated into the flags — to the fixed forward address, and then
waits for a reply; a reply event stores the parsed result into the
cache and finishes the module; a timeout or transport-error event
flags a module error. -/
theorem C6_forwarding_bypasses_state_machine (fuel : Nat) (ie : IterEnv)
    (env : ModuleEnv) (qstate : ModuleQstate) (iqo : Option IterQstate)
    (ob : Nat) (n : Region) (e : Nat) (pr : QueryInfo × List RRset)
    (hfwd : ie.fwd_addrlen ≠ 0)
    (hsend : env.send_query_result = some e)
    (hparse : env.parse_result = some pr)
    (hencode : env.encode_ok = true) :
    ((iter_operate fuel ie env qstate ModuleEv.module_event_new iqo
        (some ob) (n + 1)).calls
      = [ExtCall.sendQuery qstate.qinfo.qname qstate.qinfo.qtype
          qstate.qinfo.qclass
          (if qstate.qinfo.has_cd then BIT_CD else 0) true ie.fwd_addr] ∧
     (iter_operate fuel ie env qstate ModuleEv.module_event_new iqo
        (some ob) (n + 1)).qstate.ext_state = ExtState.module_wait_reply) ∧
    ((iter_operate fuel ie env qstate ModuleEv.module_event_reply iqo
        (some ob) (n + 1)).qstate.ext_state = ExtState.module_finished ∧
     (iter_operate fuel ie env qstate ModuleEv.module_event_reply iqo
        (some ob) (n + 1)).calls = [ExtCall.cacheStore pr.1]) ∧
    ((iter_operate fuel ie env qstate ModuleEv.module_event_timeout iqo
        (some ob) (n + 1)).qstate.ext_state = ExtState.module_error ∧
     (iter_operate fuel ie env qstate ModuleEv.module_event_error iqo
        (some ob) (n + 1)).qstate.ext_state = ExtState.module_error) ∧
    (∀ ev : ModuleEv,
      touches_iter_machine
        (iter_operate fuel ie env qstate ev iqo (some ob) (n + 1)).calls
        = false) := by
  refine ⟨⟨?_, ?_⟩, ⟨?_, ?_⟩, ⟨?_, ?_⟩, ?_⟩
  · simp [iter_operate, hfwd, perform_forward, fwd_new, region_alloc, hsend]
  · simp [iter_operate, hfwd, perform_forward, fwd_new, region_alloc, hsend]
  · simp [iter_operate, hfwd, perform_forward, iter_handlereply, hparse,
      hencode]
  · simp [iter_operate, hfwd, perform_forward, iter_handlereply, hparse,
      hencode]
  · simp [iter_operate, hfwd, perform_forward]
  · simp [iter_operate, hfwd, perform_forward]
  · intro ev
    cases ev with
    | module_event_new =>
      simp [iter_operate, hfwd, perform_forward, fwd_new, region_alloc,
        hsend, touches_iter_machine]
    | module_event_reply =>
      simp [iter_operate, hfwd, perform_forward, iter_handlereply, hparse,
        hencode, touches_iter_machine]
    | module_event_timeout =>
      simp [iter_operate, hfwd, perform_forward, touches_iter_machine]
    | module_event_error =>
      simp [iter_operate, hfwd, perform_forward, touches_iter_machine]
    | module_event_other =>
      simp [iter_operate, hfwd, perform_forward, touches_iter_machine]

/-- Witness for C6 at a concrete forwarding configuration: one query
with the CD bit set is sent to address 99 with dnssec requested, the
module then waits; a reply stores to the cache and finishes; timeout
and error events flag a module error; no event touches the cache or
delegation lookups of the state machine. -/
theorem C6_forwarding_bypasses_state_machine_witness :
    c6_ie.fwd_addrlen ≠ 0 ∧
    c6_env.send_query_result = some 5 ∧
    c6_env.parse_result = some c6_reply ∧
    c6_env.encode_ok = true ∧
    (((iter_operate 3 c6_ie c6_env c6_qstate ModuleEv.module_event_new
         none (some 5) 9).calls
       = [ExtCall.sendQuery c6_qstate.qinfo.qname c6_qstate.qinfo.qtype
           c6_qstate.qinfo.qclass
           (if c6_qstate.qinfo.has_cd then BIT_CD else 0) true
           c6_ie.fwd_addr] ∧
      (iter_operate 3 c6_ie c6_env c6_qstate ModuleEv.module_event_new
         none (some 5) 9).qstate.ext_state = ExtState.module_wait_reply) ∧
     ((iter_operate 3 c6_ie c6_env c6_qstate ModuleEv.module_event_reply
         none (some 5) 9).qstate.ext_state = ExtState.module_finished ∧
      (iter_operate 3 c6_ie c6_env c6_qstate ModuleEv.module_event_reply
         none (some 5) 9).calls = [ExtCall.cacheStore c6_reply.1]) ∧
     ((iter_operate 3 c6_ie c6_env c6_qstate ModuleEv.module_event_timeout
         none (some 5) 9).qstate.ext_state = ExtState.module_error ∧
      (iter_operate 3 c6_ie c6_env c6_qstate ModuleEv.module_event_error
         none (some 5) 9).qstate.ext_state = ExtState.module_error) ∧
     (∀ ev : ModuleEv,
       touches_iter_machine
         (iter_operate 3 c6_ie c6_env c6_qstate ev none (some 5) 9).calls
         = false)) :=
  ⟨by decide, rfl, rfl, rfl,
   C6_forwarding_bypasses_state_machine 3 c6_ie c6_env c6_qstate none 5 8 5
     c6_reply (by decide) rfl rfl rfl⟩
